import Mathlib

/-!
A verification development for `generate_sql_files.py`, a one-shot script
that materializes a hardcoded catalog of database table definitions into
individual SQL files (`table.sql`, per-index files, optional trigger file)
under `sql/02-tables/<table>/`.

The script is embedded shallowly: the catalog is transcribed byte-exactly,
the f-string templates become string concatenations, and the run becomes a
list of events (progress print, file write, final message).  A failure-aware
execution semantics (`execEvents`) models Python's exception propagation on
a failed `open`/`write`: the run stops at the first failing write.
-/

set_option maxRecDepth 100000
set_option maxHeartbeats 2000000

/-- One entry of the `tables` dict: the raw column DDL text, the list of
`(index_name, index_columns)` pairs, and the descriptive comment. -/
structure TableInfo where
  columns : String
  indexes : List (String × String)
  comment : String
deriving DecidableEq, Repr

/-- `charsStart p s` is true when the char list `p` is an initial segment
of `s` (helper for the substring test). -/
def charsStart : List Char → List Char → Bool
  | [], _ => true
  | _ :: _, [] => false
  | p :: ps, c :: cs => p == c && charsStart ps cs

/-- `charsContain pat s` is true when `pat` occurs contiguously in `s`
(helper for the substring test). -/
def charsContain (pat : List Char) : List Char → Bool
  | [] => charsStart pat []
  | c :: cs => charsStart pat (c :: cs) || charsContain pat cs

/-- Python's `pat in s` substring test on strings. -/
def strContains (s pat : String) : Bool :=
  charsContain pat.data s.data

/-- Python's `s.startswith(pat)` on strings (used to classify output paths). -/
def strStarts (s pat : String) : Bool :=
  charsStart pat.data s.data

/-- Helper for Python's `str.title()`: the boolean records whether the
previous character was a letter; a letter after a non-letter is uppercased,
a letter after a letter is lowercased. -/
def pyTitleAux : Bool → List Char → List Char
  | _, [] => []
  | prevAlpha, c :: cs =>
    if c.isAlpha then
      (if prevAlpha then c.toLower else c.toUpper) :: pyTitleAux true cs
    else
      c :: pyTitleAux false cs

/-- Python's `str.title()` restricted to ASCII input. -/
def pyTitle (s : String) : String :=
  ⟨pyTitleAux false s.data⟩

/-- `table_name.replace('_', ' ')` from the script (single-char replace). -/
def replaceUnderscores (s : String) : String :=
  ⟨s.data.map (fun c => if c == '_' then ' ' else c)⟩

/-- Character-list equality by a linear scan (agrees with `=`; see
`charsEq_iff`). -/
def charsEq : List Char → List Char → Bool
  | [], [] => true
  | [], _ :: _ => false
  | _ :: _, [] => false
  | a :: as, b :: bs => a == b && charsEq as bs

/-- String equality by a linear scan over the characters (agrees with `=`;
see `strEqB_eq`). -/
def strEqB (s t : String) : Bool :=
  charsEq s.data t.data
/-- The `clients` entry of the `tables` dict. -/
def clients : TableInfo where
  columns := "\n  id UUID PRIMARY KEY DEFAULT gen_random_uuid(),\n  organization_id UUID NOT NULL REFERENCES organizations(id) ON DELETE CASCADE,\n\n  -- Basic Information\n  first_name TEXT NOT NULL,\n  last_name TEXT NOT NULL,\n  date_of_birth DATE NOT NULL,\n  gender TEXT CHECK (gender IN (\x27male\x27, \x27female\x27, \x27other\x27, \x27prefer_not_to_say\x27)),\n\n  -- Contact Information\n  email TEXT,\n  phone TEXT,\n  address JSONB DEFAULT \x27\x7b\x7d\x27, -- \x7bstreet, city, state, zip_code, country\x7d\n\n  -- Emergency Contact\n  emergency_contact JSONB DEFAULT \x27\x7b\x7d\x27, -- \x7bname, relationship, phone, alternate_phone\x7d\n\n  -- Medical Information\n  allergies TEXT[],\n  medical_conditions TEXT[],\n  blood_type TEXT,\n\n  -- Administrative\n  status TEXT DEFAULT \x27active\x27 CHECK (status IN (\x27active\x27, \x27inactive\x27, \x27archived\x27)),\n  admission_date DATE,\n  discharge_date DATE,\n  notes TEXT,\n  metadata JSONB DEFAULT \x27\x7b\x7d\x27,\n\n  -- Audit\n  created_by UUID REFERENCES users(id),\n  updated_by UUID REFERENCES users(id),\n  created_at TIMESTAMPTZ DEFAULT NOW(),\n  updated_at TIMESTAMPTZ DEFAULT NOW()"
  indexes := [("idx_clients_organization", "organization_id"),
    ("idx_clients_name", "last_name, first_name"),
    ("idx_clients_status", "status"),
    ("idx_clients_dob", "date_of_birth")]
  comment := "Patient/client records with full medical information"

/-- The `medications` entry of the `tables` dict. -/
def medications : TableInfo where
  columns := "\n  id UUID PRIMARY KEY DEFAULT gen_random_uuid(),\n  organization_id UUID NOT NULL REFERENCES organizations(id) ON DELETE CASCADE,\n\n  -- Medication Information\n  name TEXT NOT NULL,\n  generic_name TEXT,\n  brand_names TEXT[],\n  rxnorm_cui TEXT, -- RXNorm Concept Unique Identifier\n  ndc_codes TEXT[], -- National Drug Codes\n\n  -- Classification\n  category_broad TEXT,\n  category_specific TEXT,\n  drug_class TEXT,\n\n  -- Flags\n  is_psychotropic BOOLEAN DEFAULT false,\n  is_controlled BOOLEAN DEFAULT false,\n  controlled_substance_schedule TEXT, -- Schedule I-V\n  is_narcotic BOOLEAN DEFAULT false,\n  requires_monitoring BOOLEAN DEFAULT false,\n  is_high_alert BOOLEAN DEFAULT false,\n\n  -- Details\n  active_ingredients JSONB DEFAULT \x27[]\x27, -- [\x7bname, strength, unit\x7d]\n  available_forms TEXT[], -- [\x27tablet\x27, \x27capsule\x27, \x27liquid\x27, etc.]\n  available_strengths TEXT[], -- [\x275mg\x27, \x2710mg\x27, \x2720mg\x27]\n\n  -- Additional Information\n  manufacturer TEXT,\n  warnings TEXT[],\n  black_box_warning TEXT,\n  metadata JSONB DEFAULT \x27\x7b\x7d\x27,\n\n  -- Status\n  is_active BOOLEAN DEFAULT true,\n  is_formulary BOOLEAN DEFAULT true,\n\n  -- Audit\n  created_by UUID REFERENCES users(id),\n  updated_by UUID REFERENCES users(id),\n  created_at TIMESTAMPTZ DEFAULT NOW(),\n  updated_at TIMESTAMPTZ DEFAULT NOW()"
  indexes := [("idx_medications_organization", "organization_id"),
    ("idx_medications_name", "name"),
    ("idx_medications_generic_name", "generic_name"),
    ("idx_medications_rxnorm", "rxnorm_cui"),
    ("idx_medications_is_controlled", "is_controlled"),
    ("idx_medications_is_active", "is_active")]
  comment := "Medication catalog with comprehensive drug information"

/-- The `medication_history` entry of the `tables` dict. -/
def medication_history : TableInfo where
  columns := "\n  id UUID PRIMARY KEY DEFAULT gen_random_uuid(),\n  organization_id UUID NOT NULL REFERENCES organizations(id) ON DELETE CASCADE,\n  client_id UUID NOT NULL REFERENCES clients(id) ON DELETE CASCADE,\n  medication_id UUID NOT NULL REFERENCES medications(id),\n\n  -- Prescription Details\n  prescription_date DATE NOT NULL,\n  start_date DATE NOT NULL,\n  end_date DATE,\n  discontinue_date DATE,\n  discontinue_reason TEXT,\n\n  -- Prescriber Information\n  prescriber_name TEXT,\n  prescriber_npi TEXT, -- National Provider Identifier\n  prescriber_license TEXT,\n\n  -- Dosage Information\n  dosage_amount DECIMAL,\n  dosage_unit TEXT,\n  frequency TEXT,\n  route TEXT, -- oral, injection, topical, etc.\n  instructions TEXT,\n\n  -- PRN (As Needed) Information\n  is_prn BOOLEAN DEFAULT false,\n  prn_reason TEXT,\n\n  -- Status\n  status TEXT DEFAULT \x27active\x27 CHECK (status IN (\x27active\x27, \x27completed\x27, \x27discontinued\x27, \x27on_hold\x27)),\n\n  -- Tracking\n  refills_authorized INTEGER,\n  refills_used INTEGER DEFAULT 0,\n  last_filled_date DATE,\n  pharmacy_name TEXT,\n\n  -- Clinical Notes\n  notes TEXT,\n  side_effects_reported TEXT[],\n  effectiveness_rating INTEGER CHECK (effectiveness_rating BETWEEN 1 AND 5),\n\n  -- Compliance\n  compliance_percentage DECIMAL,\n  missed_doses_count INTEGER DEFAULT 0,\n\n  -- Additional Data\n  metadata JSONB DEFAULT \x27\x7b\x7d\x27,\n\n  -- Audit\n  created_by UUID REFERENCES users(id),\n  updated_by UUID REFERENCES users(id),\n  created_at TIMESTAMPTZ DEFAULT NOW(),\n  updated_at TIMESTAMPTZ DEFAULT NOW()"
  indexes := [("idx_medication_history_organization", "organization_id"),
    ("idx_medication_history_client", "client_id"),
    ("idx_medication_history_medication", "medication_id"),
    ("idx_medication_history_status", "status"),
    ("idx_medication_history_prescription_date", "prescription_date"),
    ("idx_medication_history_is_prn", "is_prn")]
  comment := "Tracks all medication prescriptions and administration history"

/-- The `dosage_info` entry of the `tables` dict. -/
def dosage_info : TableInfo where
  columns := "\n  id UUID PRIMARY KEY DEFAULT gen_random_uuid(),\n  organization_id UUID NOT NULL REFERENCES organizations(id) ON DELETE CASCADE,\n  medication_history_id UUID NOT NULL REFERENCES medication_history(id) ON DELETE CASCADE,\n  client_id UUID NOT NULL REFERENCES clients(id) ON DELETE CASCADE,\n\n  -- Administration Details\n  scheduled_datetime TIMESTAMPTZ NOT NULL,\n  administered_datetime TIMESTAMPTZ,\n  administered_by UUID REFERENCES users(id),\n\n  -- Dosage\n  scheduled_amount DECIMAL NOT NULL,\n  administered_amount DECIMAL,\n  unit TEXT NOT NULL,\n\n  -- Status\n  status TEXT NOT NULL DEFAULT \x27scheduled\x27 CHECK (status IN (\n    \x27scheduled\x27, \x27administered\x27, \x27skipped\x27, \x27refused\x27, \x27missed\x27, \x27late\x27, \x27early\x27\n  )),\n\n  -- Reasons and Notes\n  skip_reason TEXT,\n  refusal_reason TEXT,\n  administration_notes TEXT,\n\n  -- Vitals (if monitored)\n  vitals_before JSONB DEFAULT \x27\x7b\x7d\x27, -- \x7bbp, hr, temp, etc.\x7d\n  vitals_after JSONB DEFAULT \x27\x7b\x7d\x27,\n\n  -- Side Effects\n  side_effects_observed TEXT[],\n  adverse_reaction BOOLEAN DEFAULT false,\n  adverse_reaction_details TEXT,\n\n  -- Verification\n  verified_by UUID REFERENCES users(id),\n  verification_datetime TIMESTAMPTZ,\n\n  -- Additional Data\n  metadata JSONB DEFAULT \x27\x7b\x7d\x27,\n\n  -- Audit\n  created_at TIMESTAMPTZ DEFAULT NOW(),\n  updated_at TIMESTAMPTZ DEFAULT NOW()"
  indexes := [("idx_dosage_info_organization", "organization_id"),
    ("idx_dosage_info_medication_history", "medication_history_id"),
    ("idx_dosage_info_client", "client_id"),
    ("idx_dosage_info_scheduled_datetime", "scheduled_datetime"),
    ("idx_dosage_info_status", "status"),
    ("idx_dosage_info_administered_by", "administered_by")]
  comment := "Tracks actual medication administration events"

/-- The `audit_log` entry of the `tables` dict. -/
def audit_log : TableInfo where
  columns := "\n  id UUID PRIMARY KEY DEFAULT gen_random_uuid(),\n  organization_id UUID REFERENCES organizations(id) ON DELETE SET NULL,\n\n  -- Event Information\n  event_type TEXT NOT NULL, -- create, update, delete, access, export, print, etc.\n  event_category TEXT NOT NULL, -- data_change, authentication, authorization, system\n  event_name TEXT NOT NULL,\n  event_description TEXT,\n\n  -- Actor Information\n  user_id UUID REFERENCES users(id),\n  user_email TEXT,\n  user_name TEXT,\n  user_roles TEXT[],\n  impersonated_by UUID REFERENCES users(id),\n\n  -- Resource Information\n  resource_type TEXT, -- table name or resource type\n  resource_id UUID,\n  resource_name TEXT,\n\n  -- Change Details\n  operation TEXT, -- INSERT, UPDATE, DELETE, SELECT\n  old_values JSONB,\n  new_values JSONB,\n  changed_fields TEXT[],\n\n  -- Request Context\n  ip_address INET,\n  user_agent TEXT,\n  session_id TEXT,\n  request_id TEXT,\n  request_method TEXT, -- GET, POST, PUT, DELETE, etc.\n  request_path TEXT,\n\n  -- Response\n  response_status INTEGER,\n  error_message TEXT,\n\n  -- Metadata\n  metadata JSONB DEFAULT \x27\x7b\x7d\x27,\n\n  -- Timestamp\n  created_at TIMESTAMPTZ DEFAULT NOW()"
  indexes := [("idx_audit_log_organization", "organization_id"),
    ("idx_audit_log_user", "user_id"),
    ("idx_audit_log_event_type", "event_type"),
    ("idx_audit_log_resource", "resource_type, resource_id"),
    ("idx_audit_log_created_at", "created_at DESC"),
    ("idx_audit_log_session", "session_id")]
  comment := "General system audit trail for all data changes"

/-- The `api_audit_log` entry of the `tables` dict. -/
def api_audit_log : TableInfo where
  columns := "\n  id UUID PRIMARY KEY DEFAULT gen_random_uuid(),\n  organization_id UUID REFERENCES organizations(id) ON DELETE SET NULL,\n\n  -- API Request\n  request_id TEXT UNIQUE NOT NULL,\n  request_timestamp TIMESTAMPTZ NOT NULL,\n  request_method TEXT NOT NULL,\n  request_path TEXT NOT NULL,\n  request_query_params JSONB,\n  request_headers JSONB,\n  request_body JSONB,\n  request_size_bytes INTEGER,\n\n  -- API Response\n  response_timestamp TIMESTAMPTZ,\n  response_status_code INTEGER,\n  response_headers JSONB,\n  response_body JSONB,\n  response_size_bytes INTEGER,\n  response_time_ms INTEGER,\n\n  -- Authentication\n  auth_method TEXT, -- bearer_token, api_key, oauth, etc.\n  auth_user_id UUID REFERENCES users(id),\n  auth_organization_id UUID REFERENCES organizations(id),\n  auth_scopes TEXT[],\n\n  -- Rate Limiting\n  rate_limit_tier TEXT,\n  rate_limit_remaining INTEGER,\n  rate_limit_reset_at TIMESTAMPTZ,\n\n  -- Error Information\n  error_code TEXT,\n  error_message TEXT,\n  error_details JSONB,\n\n  -- Performance Metrics\n  database_queries_count INTEGER,\n  database_time_ms INTEGER,\n  cache_hits INTEGER,\n  cache_misses INTEGER,\n\n  -- Client Information\n  client_ip INET,\n  client_user_agent TEXT,\n  client_version TEXT,\n  client_sdk TEXT,\n\n  -- HATEOAS Links (if applicable)\n  hateoas_links JSONB,\n\n  -- Metadata\n  metadata JSONB DEFAULT \x27\x7b\x7d\x27,\n\n  -- Timestamp\n  created_at TIMESTAMPTZ DEFAULT NOW()"
  indexes := [("idx_api_audit_log_organization", "organization_id"),
    ("idx_api_audit_log_request_id", "request_id"),
    ("idx_api_audit_log_user", "auth_user_id"),
    ("idx_api_audit_log_timestamp", "request_timestamp DESC"),
    ("idx_api_audit_log_method_path", "request_method, request_path"),
    ("idx_api_audit_log_status", "response_status_code"),
    ("idx_api_audit_log_client_ip", "client_ip")]
  comment := "REST API specific audit logging with performance metrics"

/-- The `tables` dict of the script: an insertion-ordered map from
table name to its definition. -/
def tables : List (String × TableInfo) := [
  ("clients", clients),
  ("medications", medications),
  ("medication_history", medication_history),
  ("dosage_info", dosage_info),
  ("audit_log", audit_log),
  ("api_audit_log", api_audit_log)]

/-- The table-file content: title comment, descriptive comment,
`CREATE TABLE IF NOT EXISTS` statement, trailing `COMMENT ON TABLE`
statement (the `table_sql` f-string of the script). -/
def table_sql (table_name : String) (table_info : TableInfo) : String :=
  "-- " ++ pyTitle (replaceUnderscores table_name) ++ " Table\n-- " ++
  table_info.comment ++ "\nCREATE TABLE IF NOT EXISTS " ++ table_name ++
  " (\n" ++ table_info.columns ++ "\n);\n\n-- Add table comment\nCOMMENT ON TABLE " ++
  table_name ++ " IS \x27" ++ table_info.comment ++ "\x27;"

/-- The path of a table file (`table_path` in the script). -/
def table_path (table_name : String) : String :=
  "sql/02-tables/" ++ table_name ++ "/table.sql"

/-- The index-file content (the `index_sql` f-string of the script). -/
def index_sql (table_name idx_name idx_cols : String) : String :=
  "-- Index on " ++ idx_cols ++ "\nCREATE INDEX IF NOT EXISTS " ++ idx_name ++
  " ON " ++ table_name ++ "(" ++ idx_cols ++ ");"

/-- The path of an index file (`index_path` in the script). -/
def index_path (table_name idx_name : String) : String :=
  "sql/02-tables/" ++ table_name ++ "/indexes/" ++ idx_name ++ ".sql"

/-- The trigger-file content (the `trigger_sql` f-string of the script). -/
def trigger_sql (table_name : String) : String :=
  "-- Trigger to automatically update the updated_at timestamp\nCREATE TRIGGER update_" ++
  table_name ++ "_updated_at\n  BEFORE UPDATE ON " ++ table_name ++
  "\n  FOR EACH ROW\n  EXECUTE FUNCTION update_updated_at_column();"

/-- The path of a trigger file (`trigger_path` in the script). -/
def trigger_path (table_name : String) : String :=
  "sql/02-tables/" ++ table_name ++ "/triggers/update_updated_at.sql"

/-- The guard `"updated_at TIMESTAMPTZ" in table_info['columns']`. -/
def hasUpdatedAt (table_info : TableInfo) : Bool :=
  strContains table_info.columns "updated_at TIMESTAMPTZ"

/-- Observable events of a run: a printed progress line, a file write
(path and content), or a printed message. -/
inductive Event where
  | progress (line : String)
  | write (path : String) (content : String)
  | message (text : String)
deriving DecidableEq, Repr

/-- The script prints `Creating: <path>` and then writes `<content>` to
`<path>`; this is the two-event block shared by all three file kinds. -/
def pairBlock (path content : String) : List Event :=
  [Event.progress ("Creating: " ++ path), Event.write path content]

/-- The body of the main loop for one table: the table file, then one file
per index, then the trigger file when `columns` contains
`updated_at TIMESTAMPTZ`. -/
def emitTable (table_name : String) (table_info : TableInfo) : List Event :=
  pairBlock (table_path table_name) (table_sql table_name table_info) ++
  table_info.indexes.flatMap
    (fun ic => pairBlock (index_path table_name ic.1) (index_sql table_name ic.1 ic.2)) ++
  (if hasUpdatedAt table_info then
    pairBlock (trigger_path table_name) (trigger_sql table_name)
  else [])

/-- The final `print("SQL file generation complete!")`. -/
def doneMsg : String := "SQL file generation complete!"

/-- The full event sequence of a run over a given catalog. -/
def runOf (cat : List (String × TableInfo)) : List Event :=
  cat.flatMap (fun pc => emitTable pc.1 pc.2) ++ [Event.message doneMsg]

/-- The event sequence of the script's run over its hardcoded catalog. -/
def run : List Event := runOf tables

/-- The `(path, content)` pairs written by an event sequence. -/
def writesOf (events : List Event) : List (String × String) :=
  events.filterMap (fun e => match e with
    | Event.write p c => some (p, c)
    | _ => none)

/-- The paths written by an event sequence. -/
def pathsOf (events : List Event) : List String :=
  (writesOf events).map Prod.fst

/-- The list of `(path, content)` pairs the script writes for one table,
in order: the table file, the index files, the optional trigger file. -/
def tableFiles (table_name : String) (table_info : TableInfo) : List (String × String) :=
  (table_path table_name, table_sql table_name table_info) ::
  (table_info.indexes.map
    (fun ic => (index_path table_name ic.1, index_sql table_name ic.1 ic.2)) ++
  (if hasUpdatedAt table_info then
    [(trigger_path table_name, trigger_sql table_name)]
  else []))

/-- All `(path, content)` pairs a run over a catalog writes, in order. -/
def allFiles (cat : List (String × TableInfo)) : List (String × String) :=
  cat.flatMap (fun pc => tableFiles pc.1 pc.2)

/-- Failure-aware execution of an event sequence.  `ok p` says whether
writing to path `p` succeeds.  Prints always succeed; a failing write
raises, so the write itself does not happen and nothing after it runs
(Python's default exception propagation: no retry, no recovery). -/
def execEvents (ok : String → Bool) : List Event → List Event
  | [] => []
  | Event.write p c :: rest =>
    if ok p then Event.write p c :: execEvents ok rest else []
  | Event.progress line :: rest => Event.progress line :: execEvents ok rest
  | Event.message text :: rest => Event.message text :: execEvents ok rest

/-- Failure-aware execution expressed over the `(path, content)` block
list: each block is its progress line then its write; the first failing
write leaves only its progress line and stops the run, and only a run
that passes every block reaches the final message. -/
def execBlocks (ok : String → Bool) : List (String × String) → List Event
  | [] => [Event.message doneMsg]
  | (p, c) :: rest =>
    if ok p then pairBlock p c ++ execBlocks ok rest
    else [Event.progress ("Creating: " ++ p)]

/-- A filesystem: a partial map from path to file content. -/
def update (fs : String → Option String) (p c : String) : String → Option String :=
  fun q => if q = p then some c else fs q

/-- Apply a list of writes to a filesystem in order, each one fully
overwriting the file at its path (`open(path, 'w')` semantics). -/
def applyWrites (ws : List (String × String)) (fs : String → Option String) :
    String → Option String :=
  match ws with
  | [] => fs
  | (p, c) :: rest => applyWrites rest (update fs p c)

/-- The content of the last write to `q` in the write list, if any. -/
def lastWrite (ws : List (String × String)) (q : String) : Option String :=
  match ws with
  | [] => none
  | (p, c) :: rest =>
    match lastWrite rest q with
    | some c2 => some c2
    | none => if q = p then some c else none

theorem emitTable_eq_flatMap (table_name : String) (table_info : TableInfo) :
    emitTable table_name table_info =
      (tableFiles table_name table_info).flatMap (fun pc => pairBlock pc.1 pc.2) := by
  unfold emitTable tableFiles
  rw [List.flatMap_cons, List.flatMap_append, List.flatMap_map]
  cases hasUpdatedAt table_info <;> simp

theorem runOf_eq_blocks (cat : List (String × TableInfo)) :
    runOf cat =
      (allFiles cat).flatMap (fun pc => pairBlock pc.1 pc.2) ++ [Event.message doneMsg] := by
  unfold runOf allFiles
  congr 1
  induction cat with
  | nil => simp
  | cons hd tl ih => simp [List.flatMap_cons, emitTable_eq_flatMap, ih, List.flatMap_assoc]

theorem execEvents_blocks (ok : String → Bool) (bs : List (String × String)) :
    execEvents ok (bs.flatMap (fun pc => pairBlock pc.1 pc.2) ++ [Event.message doneMsg]) =
      execBlocks ok bs := by
  induction bs with
  | nil => simp [execEvents, execBlocks]
  | cons hd tl ih =>
    obtain ⟨p, c⟩ := hd
    cases h : ok p
    · simp [execBlocks, pairBlock, execEvents, h]
    · simp [execBlocks, pairBlock, execEvents, h]
      simpa using ih

theorem writesOf_blocks (bs : List (String × String)) :
    writesOf (bs.flatMap (fun pc => pairBlock pc.1 pc.2) ++ [Event.message doneMsg]) = bs := by
  induction bs with
  | nil => simp [writesOf]
  | cons hd tl ih =>
    obtain ⟨p, c⟩ := hd
    simpa [writesOf, pairBlock] using ih

theorem run_eq_blocks :
    run = (allFiles tables).flatMap (fun pc => pairBlock pc.1 pc.2) ++ [Event.message doneMsg] := by
  unfold run
  exact runOf_eq_blocks tables

theorem writesOf_run : writesOf run = allFiles tables := by
  rw [run_eq_blocks]
  exact writesOf_blocks _

theorem message_mem_execBlocks (ok : String → Bool) (bs : List (String × String)) :
    Event.message doneMsg ∈ execBlocks ok bs ↔ ∀ pc ∈ bs, ok pc.1 = true := by
  induction bs with
  | nil => simp [execBlocks]
  | cons hd tl ih =>
    obtain ⟨p, c⟩ := hd
    cases h : ok p <;> simp [execBlocks, pairBlock, h, ih]

theorem execBlocks_prefix (ok : String → Bool) (bs : List (String × String)) :
    execBlocks ok bs <+: bs.flatMap (fun pc => pairBlock pc.1 pc.2) ++ [Event.message doneMsg] := by
  induction bs with
  | nil => simp [execBlocks]
  | cons hd tl ih =>
    obtain ⟨p, c⟩ := hd
    rw [List.flatMap_cons]
    cases h : ok p
    · simp [execBlocks, h, pairBlock, List.cons_prefix_cons]
    · simpa [execBlocks, h, pairBlock, List.cons_prefix_cons] using ih

theorem execBlocks_paired (ok : String → Bool) (bs : List (String × String)) :
    ∀ (n : Nat) (p c : String),
      (execBlocks ok bs)[n]? = some (Event.write p c) →
      ∃ m, n = m + 1 ∧
        (execBlocks ok bs)[m]? = some (Event.progress ("Creating: " ++ p)) := by
  induction bs with
  | nil =>
    intro n p c h
    cases n <;> simp [execBlocks] at h
  | cons hd tl ih =>
    obtain ⟨q, d⟩ := hd
    intro n p c h
    cases hok : ok q
    · rw [execBlocks, hok] at h
      cases n <;> simp at h
    · rw [execBlocks, hok] at h
      simp only [pairBlock, if_true, List.cons_append, List.nil_append] at h
      cases n with
      | zero => simp at h
      | succ k =>
        cases k with
        | zero =>
          rw [List.getElem?_cons_succ, List.getElem?_cons_zero] at h
          have heq : Event.write q d = Event.write p c := by simpa using h
          obtain ⟨hp, hc⟩ := Event.write.inj heq
          refine ⟨0, rfl, ?_⟩
          rw [execBlocks, hok]
          simp [pairBlock, hp]
        | succ k2 =>
          rw [List.getElem?_cons_succ, List.getElem?_cons_succ] at h
          obtain ⟨m, hm, hget⟩ := ih k2 p c h
          subst hm
          refine ⟨m + 2, rfl, ?_⟩
          rw [execBlocks, hok]
          simp only [pairBlock, if_true, List.cons_append, List.nil_append,
            List.getElem?_cons_succ]
          exact hget

theorem execBlocks_lastFail (ok : String → Bool) (bs : List (String × String)) :
    Event.message doneMsg ∉ execBlocks ok bs →
    ∃ p, (execBlocks ok bs).getLast? = some (Event.progress ("Creating: " ++ p)) ∧
      ok p = false ∧ ∀ c, Event.write p c ∉ execBlocks ok bs := by
  induction bs with
  | nil => intro h; simp [execBlocks] at h
  | cons hd tl ih =>
    obtain ⟨q, d⟩ := hd
    intro h
    cases hok : ok q
    · refine ⟨q, ?_, hok, ?_⟩
      · rw [execBlocks, hok]
        rfl
      · intro c
        rw [execBlocks, hok]
        simp
    · rw [execBlocks, hok] at h
      simp only [pairBlock, if_true, List.cons_append, List.nil_append, List.mem_cons] at h
      push_neg at h
      obtain ⟨-, -, hmem⟩ := h
      obtain ⟨p, hlast, hfalse, hnw⟩ := ih hmem
      refine ⟨p, ?_, hfalse, ?_⟩
      · rw [execBlocks, hok]
        simp only [pairBlock, if_true, List.cons_append, List.nil_append]
        rw [show (Event.progress ("Creating: " ++ q) :: Event.write q d :: execBlocks ok tl) =
          [Event.progress ("Creating: " ++ q), Event.write q d] ++ execBlocks ok tl by simp,
          List.getLast?_append, hlast]
        rfl
      · intro c
        rw [execBlocks, hok]
        simp only [pairBlock, if_true, List.cons_append, List.nil_append, List.mem_cons]
        push_neg
        refine ⟨by simp, ?_, hnw c⟩
        intro heq
        obtain ⟨hp, -⟩ := Event.write.inj heq
        rw [hp] at hfalse
        rw [hok] at hfalse
        exact Bool.true_eq_false.mp hfalse

theorem applyWrites_eq_lastWrite (ws : List (String × String)) :
    ∀ (fs : String → Option String) (q : String),
      applyWrites ws fs q =
        match lastWrite ws q with
        | some c => some c
        | none => fs q := by
  induction ws with
  | nil => intro fs q; rfl
  | cons hd tl ih =>
    obtain ⟨p, c⟩ := hd
    intro fs q
    show applyWrites tl (update fs p c) q = _
    rw [ih]
    simp only [lastWrite]
    cases h : lastWrite tl q with
    | some c2 => rfl
    | none => by_cases hq : q = p <;> simp [update, hq]

theorem applyWrites_idem (ws : List (String × String)) (fs : String → Option String)
    (q : String) :
    applyWrites ws (applyWrites ws fs) q = applyWrites ws fs q := by
  rw [applyWrites_eq_lastWrite]
  cases h : lastWrite ws q with
  | some c => rw [applyWrites_eq_lastWrite, h]
  | none => rfl

theorem lastWrite_isSome_of_mem (ws : List (String × String)) (q c : String)
    (h : (q, c) ∈ ws) : (lastWrite ws q).isSome = true := by
  induction ws with
  | nil => cases h
  | cons hd tl ih =>
    obtain ⟨p, d⟩ := hd
    rw [lastWrite]
    cases h2 : lastWrite tl q with
    | some c2 => simp
    | none =>
      rcases List.mem_cons.mp h with h3 | h3
      · obtain ⟨hq, -⟩ := Prod.mk.injEq .. ▸ h3
        simp [hq]
      · rw [h2] at ih
        simpa using ih h3

theorem applyWrites_written (ws : List (String × String))
    (fs1 fs2 : String → Option String) (q : String) (h : ∃ c, (q, c) ∈ ws) :
    applyWrites ws fs1 q = applyWrites ws fs2 q := by
  obtain ⟨c, hc⟩ := h
  rw [applyWrites_eq_lastWrite, applyWrites_eq_lastWrite]
  cases h2 : lastWrite ws q with
  | some c2 => rfl
  | none =>
    have := lastWrite_isSome_of_mem ws q c hc
    rw [h2] at this
    simp at this

theorem charsEq_iff (as : List Char) : ∀ bs, charsEq as bs = true ↔ as = bs := by
  induction as with
  | nil => intro bs; cases bs <;> simp [charsEq]
  | cons a as ih =>
    intro bs
    cases bs with
    | nil => simp [charsEq]
    | cons b bs => simp [charsEq, ih]

theorem strEqB_eq (s t : String) : strEqB s t = true ↔ s = t := by
  obtain ⟨sd⟩ := s
  obtain ⟨td⟩ := t
  show charsEq sd td = true ↔ _
  rw [charsEq_iff]
  constructor
  · intro h
    rw [h]
  · intro h
    injection h

theorem execEvents_all_ok (l : List Event) : execEvents (fun _ => true) l = l := by
  induction l with
  | nil => rfl
  | cons e rest ih => cases e <;> simp [execEvents, ih]

set_option maxRecDepth 10000 in
theorem run_getElem_one :
    run[1]? = some (Event.write (table_path "clients") (table_sql "clients" clients)) := by
  rw [run_eq_blocks]
  show (((table_path "clients", table_sql "clients" clients) ::
      (clients.indexes.map (fun ic =>
        (index_path "clients" ic.1, index_sql "clients" ic.1 ic.2)) ++
      (if hasUpdatedAt clients then
        [(trigger_path "clients", trigger_sql "clients")] else []) ++
      (tables.tail.flatMap fun pc => tableFiles pc.1 pc.2))).flatMap
        (fun pc => pairBlock pc.1 pc.2) ++ [Event.message doneMsg])[1]? = _
  rw [List.flatMap_cons]
  rfl

set_option maxRecDepth 10000 in
theorem clients_table_write_mem :
    (table_path "clients", table_sql "clients" clients) ∈ writesOf run := by
  rw [writesOf_run]
  show _ ∈ (tableFiles "clients" clients ++ (tables.tail.flatMap fun pc => tableFiles pc.1 pc.2))
  exact List.mem_append_left _ (List.mem_cons_self _ _)

/-- C1: for every table in the catalog, the emitter writes exactly one file
at that table's `table.sql` path; its content is the `table_sql` text
(title comment, descriptive comment, `CREATE TABLE IF NOT EXISTS` statement
built from the name and columns, trailing `COMMENT ON TABLE` statement),
and in particular the content contains the table's comment, the
`CREATE TABLE IF NOT EXISTS <name>` statement and the
`COMMENT ON TABLE <name> IS '<comment>';` statement. -/
theorem spec_c1 : ∀ pc ∈ tables,
    (pathsOf run).count (table_path pc.1) = 1 ∧
    ∀ w ∈ writesOf run, w.1 = table_path pc.1 →
      w.2 = table_sql pc.1 pc.2 ∧
      strContains w.2 pc.2.comment = true ∧
      strContains w.2 ("CREATE TABLE IF NOT EXISTS " ++ pc.1) = true ∧
      strContains w.2 ("COMMENT ON TABLE " ++ pc.1 ++ " IS \x27" ++ pc.2.comment ++ "\x27;") = true := by
  have H : ∀ pc ∈ tables,
      (pathsOf run).count (table_path pc.1) = 1 ∧
      ∀ w ∈ writesOf run, w.1 = table_path pc.1 →
        strEqB w.2 (table_sql pc.1 pc.2) = true ∧
        strContains w.2 pc.2.comment = true ∧
        strContains w.2 ("CREATE TABLE IF NOT EXISTS " ++ pc.1) = true ∧
        strContains w.2 ("COMMENT ON TABLE " ++ pc.1 ++ " IS \x27" ++ pc.2.comment ++ "\x27;") = true := by
    decide
  intro pc hpc
  obtain ⟨h1, h2⟩ := H pc hpc
  refine ⟨h1, fun w hw hpath => ?_⟩
  obtain ⟨he, hc⟩ := h2 w hw hpath
  exact ⟨(strEqB_eq _ _).mp he, hc⟩

theorem spec_c1_witness :
    (pathsOf run).count (table_path "clients") = 1 ∧
    table_sql "clients" clients = table_sql "clients" clients ∧
    strContains (table_sql "clients" clients) clients.comment = true ∧
    strContains (table_sql "clients" clients) ("CREATE TABLE IF NOT EXISTS " ++ "clients") = true ∧
    strContains (table_sql "clients" clients)
      ("COMMENT ON TABLE " ++ "clients" ++ " IS \x27" ++ clients.comment ++ "\x27;") = true :=
  ⟨(spec_c1 ("clients", clients) (List.mem_cons_self _ _)).1,
   (spec_c1 ("clients", clients) (List.mem_cons_self _ _)).2
     (table_path "clients", table_sql "clients" clients) clients_table_write_mem rfl⟩

/-- C2: for every (table, index) pair in the catalog, the emitter writes
exactly one file at that index's path; its content is the `index_sql` text
and in particular contains the statement
`CREATE INDEX IF NOT EXISTS <index_name> ON <table>(<columns>)`. -/
theorem spec_c2 : ∀ pc ∈ tables, ∀ ic ∈ pc.2.indexes,
    (pathsOf run).count (index_path pc.1 ic.1) = 1 ∧
    ∀ w ∈ writesOf run, w.1 = index_path pc.1 ic.1 →
      w.2 = index_sql pc.1 ic.1 ic.2 ∧
      strContains w.2
        ("CREATE INDEX IF NOT EXISTS " ++ ic.1 ++ " ON " ++ pc.1 ++ "(" ++ ic.2 ++ ")") = true := by
  have H : ∀ pc ∈ tables, ∀ ic ∈ pc.2.indexes,
      (pathsOf run).count (index_path pc.1 ic.1) = 1 ∧
      ∀ w ∈ writesOf run, w.1 = index_path pc.1 ic.1 →
        strEqB w.2 (index_sql pc.1 ic.1 ic.2) = true ∧
        strContains w.2
          ("CREATE INDEX IF NOT EXISTS " ++ ic.1 ++ " ON " ++ pc.1 ++ "(" ++ ic.2 ++ ")") = true := by
    decide
  intro pc hpc ic hic
  obtain ⟨h1, h2⟩ := H pc hpc ic hic
  refine ⟨h1, fun w hw hpath => ?_⟩
  obtain ⟨he, hc⟩ := h2 w hw hpath
  exact ⟨(strEqB_eq _ _).mp he, hc⟩

theorem spec_c2_witness :
    (pathsOf run).count (index_path "clients" "idx_clients_organization") = 1 ∧
    index_sql "clients" "idx_clients_organization" "organization_id" =
      index_sql "clients" "idx_clients_organization" "organization_id" ∧
    strContains (index_sql "clients" "idx_clients_organization" "organization_id")
      ("CREATE INDEX IF NOT EXISTS " ++ "idx_clients_organization" ++ " ON " ++ "clients" ++
        "(" ++ "organization_id" ++ ")") = true :=
  ⟨(spec_c2 ("clients", clients) (List.mem_cons_self _ _)
      ("idx_clients_organization", "organization_id") (List.mem_cons_self _ _)).1,
   (spec_c2 ("clients", clients) (List.mem_cons_self _ _)
      ("idx_clients_organization", "organization_id") (List.mem_cons_self _ _)).2
     (index_path "clients" "idx_clients_organization",
      index_sql "clients" "idx_clients_organization" "organization_id") (by decide) rfl⟩

/-- C3: for every table in the catalog, a trigger file is produced if and
only if the table's columns text contains the substring
`updated_at TIMESTAMPTZ`; at most one such file is written per table, and
its content is the `trigger_sql` text wiring a `BEFORE UPDATE` trigger on
the table to the shared `update_updated_at_column` function. -/
theorem spec_c3 : ∀ pc ∈ tables,
    ((trigger_path pc.1 ∈ pathsOf run) ↔
      strContains pc.2.columns "updated_at TIMESTAMPTZ" = true) ∧
    (pathsOf run).count (trigger_path pc.1) =
      (if strContains pc.2.columns "updated_at TIMESTAMPTZ" then 1 else 0) ∧
    ∀ w ∈ writesOf run, w.1 = trigger_path pc.1 →
      w.2 = trigger_sql pc.1 ∧
      strContains w.2 ("BEFORE UPDATE ON " ++ pc.1) = true ∧
      strContains w.2 "EXECUTE FUNCTION update_updated_at_column();" = true := by
  have H : ∀ pc ∈ tables,
      ((trigger_path pc.1 ∈ pathsOf run) ↔
        strContains pc.2.columns "updated_at TIMESTAMPTZ" = true) ∧
      (pathsOf run).count (trigger_path pc.1) =
        (if strContains pc.2.columns "updated_at TIMESTAMPTZ" then 1 else 0) ∧
      ∀ w ∈ writesOf run, w.1 = trigger_path pc.1 →
        strEqB w.2 (trigger_sql pc.1) = true ∧
        strContains w.2 ("BEFORE UPDATE ON " ++ pc.1) = true ∧
        strContains w.2 "EXECUTE FUNCTION update_updated_at_column();" = true := by
    decide
  intro pc hpc
  obtain ⟨h1, h2, h3⟩ := H pc hpc
  refine ⟨h1, h2, fun w hw hpath => ?_⟩
  obtain ⟨he, hc⟩ := h3 w hw hpath
  exact ⟨(strEqB_eq _ _).mp he, hc⟩

theorem spec_c3_witness :
    ((trigger_path "clients" ∈ pathsOf run) ↔
      strContains clients.columns "updated_at TIMESTAMPTZ" = true) ∧
    trigger_sql "clients" = trigger_sql "clients" ∧
    strContains (trigger_sql "clients") ("BEFORE UPDATE ON " ++ "clients") = true ∧
    strContains (trigger_sql "clients") "EXECUTE FUNCTION update_updated_at_column();" = true :=
  ⟨(spec_c3 ("clients", clients) (List.mem_cons_self _ _)).1,
   (spec_c3 ("clients", clients) (List.mem_cons_self _ _)).2.2
     (trigger_path "clients", trigger_sql "clients") (by decide) rfl⟩

/-- C4: every path written by the run has one of the three spec shapes
`sql/02-tables/<table>/table.sql`,
`sql/02-tables/<table>/indexes/<index_name>.sql`, or
`sql/02-tables/<table>/triggers/update_updated_at.sql` for a catalog table
(and its index names), and conversely each table file, each index file, and
the trigger file of each table with an `updated_at TIMESTAMPTZ` column is
written; no other paths are written. -/
theorem spec_c4 :
    (∀ w ∈ writesOf run, ∃ pc ∈ tables,
        w.1 = "sql/02-tables/" ++ pc.1 ++ "/table.sql" ∨
        (∃ ic ∈ pc.2.indexes,
          w.1 = "sql/02-tables/" ++ pc.1 ++ "/indexes/" ++ ic.1 ++ ".sql") ∨
        w.1 = "sql/02-tables/" ++ pc.1 ++ "/triggers/update_updated_at.sql") ∧
      ∀ pc ∈ tables,
        ("sql/02-tables/" ++ pc.1 ++ "/table.sql") ∈ pathsOf run ∧
        (∀ ic ∈ pc.2.indexes,
          ("sql/02-tables/" ++ pc.1 ++ "/indexes/" ++ ic.1 ++ ".sql") ∈ pathsOf run) ∧
        (hasUpdatedAt pc.2 = true →
          ("sql/02-tables/" ++ pc.1 ++ "/triggers/update_updated_at.sql") ∈ pathsOf run) := by
  decide

/-- C5: the filesystem effect of a run is idempotent and deterministic:
re-running the emitter over the already-written filesystem changes nothing
(each file is fully overwritten with the same bytes), and the content at
every written path is a pure function of the catalog, independent of the
prior filesystem state. -/
theorem spec_c5 (fs fs2 : String → Option String) (q : String) :
    applyWrites (writesOf run) (applyWrites (writesOf run) fs) q =
      applyWrites (writesOf run) fs q ∧
    ((∃ c, (q, c) ∈ writesOf run) →
      applyWrites (writesOf run) fs q = applyWrites (writesOf run) fs2 q) :=
  ⟨applyWrites_idem _ _ _, fun h => applyWrites_written _ _ _ _ h⟩

theorem spec_c5_witness :
    applyWrites (writesOf run) (applyWrites (writesOf run) (fun _ => none))
        (table_path "clients") =
      applyWrites (writesOf run) (fun _ => none) (table_path "clients") ∧
    applyWrites (writesOf run) (fun _ => none) (table_path "clients") =
      applyWrites (writesOf run) (fun _ => some "") (table_path "clients") :=
  ⟨(spec_c5 (fun _ => none) (fun _ => some "") (table_path "clients")).1,
   (spec_c5 (fun _ => none) (fun _ => some "") (table_path "clients")).2
     ⟨table_sql "clients" clients, clients_table_write_mem⟩⟩

/-- C6: the `clients` table spec yields a write to
`sql/02-tables/clients/table.sql` whose content contains
`CREATE TABLE IF NOT EXISTS clients (`, exactly the four index files
`idx_clients_organization.sql`, `idx_clients_name.sql`,
`idx_clients_status.sql`, `idx_clients_dob.sql` under
`sql/02-tables/clients/indexes/`, and a trigger file at
`sql/02-tables/clients/triggers/update_updated_at.sql`. -/
theorem spec_c6 :
    (∃ w ∈ writesOf run, w.1 = "sql/02-tables/clients/table.sql" ∧
      strContains w.2 "CREATE TABLE IF NOT EXISTS clients (" = true) ∧
    (pathsOf run).filter (fun p => strStarts p "sql/02-tables/clients/indexes/") =
      ["sql/02-tables/clients/indexes/idx_clients_organization.sql",
       "sql/02-tables/clients/indexes/idx_clients_name.sql",
       "sql/02-tables/clients/indexes/idx_clients_status.sql",
       "sql/02-tables/clients/indexes/idx_clients_dob.sql"] ∧
    "sql/02-tables/clients/triggers/update_updated_at.sql" ∈ pathsOf run := by
  decide

/-- C7: the `audit_log` table spec (no `updated_at` column) yields its
`table.sql` file and exactly six index files, and no file at all under its
`triggers/` directory. -/
theorem spec_c7 :
    "sql/02-tables/audit_log/table.sql" ∈ pathsOf run ∧
    ((pathsOf run).filter (fun p => strStarts p "sql/02-tables/audit_log/indexes/")).length = 6 ∧
    (pathsOf run).filter (fun p => strStarts p "sql/02-tables/audit_log/triggers/") = [] := by
  decide

/-- C8: under the failure-aware semantics, the executed trace is a prefix
of the full run (any write error aborts the run with no retry and no
recovery), and the final success message appears in the trace if and only
if every file write succeeds. -/
theorem spec_c8 (ok : String → Bool) :
    execEvents ok run <+: run ∧
      (Event.message doneMsg ∈ execEvents ok run ↔
        ∀ w ∈ writesOf run, ok w.1 = true) := by
  constructor
  · rw [run_eq_blocks, execEvents_blocks]
    exact execBlocks_prefix ok _
  · rw [run_eq_blocks, execEvents_blocks, writesOf_blocks]
    exact message_mem_execBlocks ok _

theorem spec_c8_witness :
    Event.message doneMsg ∈ execEvents (fun _ => true) run ∧
      execEvents (fun _ => false) run <+: run :=
  ⟨(spec_c8 (fun _ => true)).2.mpr (fun _ _ => rfl),
   (spec_c8 (fun _ => false)).1⟩

/-- C9: a complete successful run writes exactly 45 pairwise-distinct
paths: the 6 table files in catalog order, 35 index files (4 for clients,
6 each for medications, medication_history, dosage_info and audit_log, 7
for api_audit_log), and exactly the 4 trigger files of clients,
medications, medication_history and dosage_info; moreover all table names
and all index names in the catalog are pairwise distinct, so no path is
written twice in one run. -/
theorem spec_c9 :
    (pathsOf run).length = 45 ∧
    (pathsOf run).Nodup ∧
    (pathsOf run).filter (fun p => strContains p "/table.sql") =
      [table_path "clients", table_path "medications", table_path "medication_history",
       table_path "dosage_info", table_path "audit_log", table_path "api_audit_log"] ∧
    ((pathsOf run).filter (fun p => strContains p "/indexes/")).length = 35 ∧
    ((pathsOf run).filter (fun p => strStarts p "sql/02-tables/clients/indexes/")).length = 4 ∧
    ((pathsOf run).filter (fun p => strStarts p "sql/02-tables/medications/indexes/")).length = 6 ∧
    ((pathsOf run).filter
      (fun p => strStarts p "sql/02-tables/medication_history/indexes/")).length = 6 ∧
    ((pathsOf run).filter (fun p => strStarts p "sql/02-tables/dosage_info/indexes/")).length = 6 ∧
    ((pathsOf run).filter (fun p => strStarts p "sql/02-tables/audit_log/indexes/")).length = 6 ∧
    ((pathsOf run).filter
      (fun p => strStarts p "sql/02-tables/api_audit_log/indexes/")).length = 7 ∧
    (pathsOf run).filter (fun p => strContains p "/triggers/") =
      [trigger_path "clients", trigger_path "medications",
       trigger_path "medication_history", trigger_path "dosage_info"] ∧
    (tables.map Prod.fst).Nodup ∧
    (tables.flatMap (fun pc => pc.2.indexes.map Prod.fst)).Nodup := by
  decide

/-- C10: in any (possibly failing) execution, every write event is
immediately preceded by its `Creating: <path>` progress line, so a file is
never written without its progress line printed first; and when a write
fails, the executed trace ends with the progress line of a path that was
not successfully written. -/
theorem spec_c10 (ok : String → Bool) :
    (∀ (n : Nat) (p c : String),
        (execEvents ok run)[n]? = some (Event.write p c) →
        ∃ m, n = m + 1 ∧
          (execEvents ok run)[m]? = some (Event.progress ("Creating: " ++ p))) ∧
      (Event.message doneMsg ∉ execEvents ok run →
        ∃ p, (execEvents ok run).getLast? = some (Event.progress ("Creating: " ++ p)) ∧
          ok p = false ∧ ∀ c, Event.write p c ∉ execEvents ok run) := by
  rw [run_eq_blocks, execEvents_blocks]
  exact ⟨execBlocks_paired ok _, execBlocks_lastFail ok _⟩

theorem spec_c10_witness :
    (∃ m, 1 = m + 1 ∧ (execEvents (fun _ => true) run)[m]? =
        some (Event.progress ("Creating: " ++ table_path "clients"))) ∧
      ∃ p, (execEvents (fun _ => false) run).getLast? =
          some (Event.progress ("Creating: " ++ p)) ∧
        (fun _ => false) p = false ∧
        ∀ c, Event.write p c ∉ execEvents (fun _ => false) run :=
  ⟨(spec_c10 (fun _ => true)).1 1 (table_path "clients") (table_sql "clients" clients)
      (by rw [execEvents_all_ok]; exact run_getElem_one),
   (spec_c10 (fun _ => false)).2 (by decide)⟩
